import Mathlib

/-!
Shallow embedding of the test-fixture lifecycle script
`airbyte-integrations/connectors/source-mysql/integration_tests/seed/hook.py`.

The script is a straight-line command dispatcher over a MySQL database.  We
model the database as a list of schema names together with an association list
of tables (keyed by schema and table name) holding `(id, name)` rows.  Each
Python function becomes a Lean function over that state; the `mysql.connector`
errors the script guards against are modelled by explicit Boolean failure
flags, and the observable effects the claims talk about (cursor open/close,
connection open/close, commit, rollback, logging, `sys.exit`) are recorded in
an event trace.  `sys.exit(1)` is modelled by the `Outcome.exited` result.
-/

namespace Hook

/-- Calendar date, standing for the date component of
`datetime.datetime.now(la_timezone)` in hook.py (line 121/191). -/
structure Date where
  year : Nat
  month : Nat
  day : Nat
deriving DecidableEq, Repr

/-- Gregorian leap-year rule, as used by Python's `datetime` calendar. -/
def isLeapYear (y : Nat) : Bool :=
  (y % 4 == 0 && y % 100 != 0) || y % 400 == 0

/-- Number of days in a month of the proleptic Gregorian calendar. -/
def daysInMonth (y m : Nat) : Nat :=
  if m = 2 then (if isLeapYear y then 29 else 28)
  else if m = 4 ∨ m = 6 ∨ m = 9 ∨ m = 11 then 30
  else 31

/-- The date one day earlier: models `today - timedelta(days=1)` from
hook.py line 192 (Python datetime subtraction decrements the calendar date
by exactly one day). -/
def prevDay (d : Date) : Date :=
  if d.day > 1 then ⟨d.year, d.month, d.day - 1⟩
  else if d.month > 1 then ⟨d.year, d.month - 1, daysInMonth d.year (d.month - 1)⟩
  else ⟨d.year - 1, 12, 31⟩

/-- The decimal digit character for `n % 10`-style arguments. -/
def digitChar (n : Nat) : Char :=
  match n with
  | 0 => '0' | 1 => '1' | 2 => '2' | 3 => '3' | 4 => '4'
  | 5 => '5' | 6 => '6' | 7 => '7' | 8 => '8' | _ => '9'

/-- Decimal rendering of a natural number, adequate for every value
`strftime` receives from `datetime` here (`year ≤ 9999 = datetime.MAXYEAR`,
months and days below 100).  Models the unpadded `%Y` directive. -/
def natToDigits (n : Nat) : List Char :=
  if n < 10 then [digitChar n]
  else if n < 100 then [digitChar (n / 10), digitChar (n % 10)]
  else if n < 1000 then [digitChar (n / 100), digitChar (n / 10 % 10), digitChar (n % 10)]
  else [digitChar (n / 1000 % 10), digitChar (n / 100 % 10), digitChar (n / 10 % 10),
        digitChar (n % 10)]

/-- Zero-padded two-digit rendering: the `%m` / `%d` strftime directives. -/
def pad2 (n : Nat) : List Char :=
  if n < 10 then ['0', digitChar n] else natToDigits n

/-- The `strftime("%Y%m%d")` date stamp of hook.py lines 121 and 193. -/
def strftimeYmd (d : Date) : List Char :=
  natToDigits d.year ++ pad2 d.month ++ pad2 d.day

/-- The population `string.ascii_lowercase + string.digits` from
hook.py line 122. -/
def schemaAlphabet : List Char :=
  "abcdefghijklmnopqrstuvwxyz0123456789".data

/-- One draw of `random.choices(string.ascii_lowercase + string.digits)`. -/
def pickChar (i : Fin 36) : Char :=
  schemaAlphabet.getD i.val 'a'

/-- hook.py lines 120-123: `generate_schema_date_with_suffix`.  The current
date and the eight random draws are passed explicitly. -/
def generate_schema_date_with_suffix (today : Date) (picks : List (Fin 36)) : String :=
  ⟨strftimeYmd today ++ '_' :: picks.map pickChar⟩

/-- Checker for the pattern from the spec. -/
def isLowerOrDigit (c : Char) : Bool :=
  c.isLower || c.isDigit

/-- Decidable check that a string matches the regular expression
`^\d{8}_[a-z0-9]{8}$`. -/
def matchesSchemaPattern (s : String) : Bool :=
  s.data.length == 17 &&
  (s.data.take 8).all Char.isDigit &&
  (s.data.drop 8).take 1 == ['_'] &&
  (s.data.drop 9).all isLowerOrDigit

/-- Matching of one SQL `LIKE` pattern character against one string
character: `_` matches any single character, anything else matches itself. -/
def likeCharMatch (p c : Char) : Bool :=
  p == '_' || p == c

/-- SQL `LIKE` matching for the patterns this script builds in
hook.py line 171: a literal prefix (whose underscores are single-character
wildcards; the prefixes passed here never contain `%`) followed by a
trailing `%` matching any suffix. -/
def likePrefixMatch : List Char → List Char → Bool
  | [], _ => true
  | _ :: _, [] => false
  | p :: ps, c :: cs => likeCharMatch p c && likePrefixMatch ps cs

/-- Row of the fixture table: an `(id, name)` record. -/
structure Row where
  id : String
  name : String
deriving DecidableEq, Repr

/-- Database state: the schema names of `information_schema.schemata`
plus the tables, keyed by (schema name, table name). -/
structure DB where
  schemas : List String
  tables : List ((String × String) × List Row)
deriving DecidableEq, Repr

/-- Observable effects of the script the claims are about. -/
inductive Ev where
  | connOpen
  | connClose
  | cursorOpen
  | cursorClose
  | executed
  | commit
  | rollback
  | logged
  | wroteFiles
deriving DecidableEq, Repr, BEq

/-- Result of a command: normal completion with a value, or process
termination through `sys.exit`. -/
inductive Outcome (α : Type) where
  | ok : α → Outcome α
  | exited : Nat → Outcome α
deriving DecidableEq, Repr

/-- Boolean event-trace membership. -/
def hasEv (tr : List Ev) (e : Ev) : Bool :=
  tr.any (fun x => decide (x = e))

/-- hook.py lines 29-45: `connect_to_db`.  On a connector error it logs and
calls `sys.exit(1)`; otherwise it returns the open connection. -/
def connect_to_db (connErr : Bool) : Outcome Unit × List Ev :=
  if connErr then (.exited 1, [.logged])
  else (.ok (), [.connOpen, .logged])

/-- Whether some row of the table already carries this primary key. -/
def idMem (rows : List Row) (i : String) : Bool :=
  rows.any (fun x => x.id == i)

/-- One `INSERT ... ON DUPLICATE KEY UPDATE id=id` statement
(hook.py line 50): if the key is present the update clause is a no-op,
otherwise the row is appended. -/
def upsertRow (rows : List Row) (r : Row) : List Row :=
  if idMem rows r.id then rows else rows ++ [r]

/-- The insertion loop of hook.py lines 52-53. -/
def insertRows (rows : List Row) (records : List Row) : List Row :=
  records.foldl upsertRow rows

/-- Table lookup on the association list. -/
def findTab (l : List ((String × String) × List Row)) (s t : String) : Option (List Row) :=
  (l.find? (fun e => e.1.1 == s && e.1.2 == t)).map (fun e => e.2)

/-- Replace the rows stored under an existing (schema, table) key. -/
def updTab (l : List ((String × String) × List Row)) (s t : String) (rows : List Row) :
    List ((String × String) × List Row) :=
  l.map (fun e => cond (e.1.1 == s && e.1.2 == t) (e.1, rows) e)

/-- Contents of a table, if the schema and table exist. -/
def getTable (db : DB) (s t : String) : Option (List Row) :=
  findTab db.tables s t

/-- State update writing new table contents. -/
def setTable (db : DB) (s t : String) (rows : List Row) : DB :=
  { db with tables := updTab db.tables s t rows }

/-- hook.py lines 47-61: `insert_records`.  A `mysql.connector` error while
executing (including a missing target table, modelled by the lookup) is
caught, logged and rolled back; the cursor is closed in the `finally`
block on both paths and the function returns normally either way. -/
def insert_records (db : DB) (s t : String) (records : List Row) (err : Bool) :
    DB × List Ev :=
  match getTable db s t, err with
  | some rows, false =>
      (setTable db s t (insertRows rows records),
       .cursorOpen :: records.map (fun _ => .executed) ++ [.commit, .logged, .cursorClose])
  | _, _ => (db, [.cursorOpen, .logged, .rollback, .cursorClose])

/-- hook.py lines 63-74: `create_schema`, a `CREATE DATABASE IF NOT EXISTS`
with the same catch-log-rollback guard and `finally` cursor close. -/
def create_schema (db : DB) (s : String) (err : Bool) : DB × List Ev :=
  if err then (db, [.cursorOpen, .logged, .rollback, .cursorClose])
  else
    (if db.schemas.contains s then db else { db with schemas := db.schemas ++ [s] },
     [.cursorOpen, .executed, .commit, .logged, .cursorClose])

/-- hook.py lines 102-118: `create_table`, a `CREATE TABLE IF NOT EXISTS`
with the same catch-log-rollback guard and `finally` cursor close. -/
def create_table (db : DB) (s t : String) (err : Bool) : DB × List Ev :=
  if err then (db, [.cursorOpen, .logged, .rollback, .cursorClose])
  else
    (match getTable db s t with
     | some _ => db
     | none => { db with tables := db.tables ++ [((s, t), [])] },
     [.cursorOpen, .executed, .commit, .logged, .cursorClose])

/-- `DROP DATABASE IF EXISTS name` (hook.py line 178): the schema and its
tables disappear. -/
def dropSchema (db : DB) (name : String) : DB :=
  { schemas := db.schemas.filter (fun s => s != name),
    tables := db.tables.filter (fun e => e.1.1 != name) }

/-- hook.py lines 164-187: `delete_schemas_with_prefix`.  Selects every
schema matching `LIKE '{pref}%'`, drops each, commits.  A query error is
logged and terminates the process via `sys.exit(1)`, the `finally` block
closing the cursor first. -/
def delete_schemas_with_prefix (db : DB) (pref : String) (err : Bool) :
    Outcome DB × List Ev :=
  if err then (.exited 1, [.cursorOpen, .logged, .cursorClose])
  else
    let matched := db.schemas.filter (fun s => likePrefixMatch pref.data s.data)
    (.ok (matched.foldl dropSchema db),
     .cursorOpen :: .executed :: matched.map (fun _ => .executed) ++ [.commit, .cursorClose])

/-- The three seed records of hook.py lines 148-152. -/
def seedRecords : List Row :=
  [⟨"1", "one"⟩, ⟨"2", "two"⟩, ⟨"3", "three"⟩]

/-- The two extra records of hook.py lines 133-136. -/
def cdcRecords : List Row :=
  [⟨"4", "four"⟩, ⟨"5", "five"⟩]

/-- hook.py lines 143-158: `setup`.  Writes the supporting files, connects,
creates schema and table, inserts the seed records, closes the connection. -/
def setup (schema_name : String) (db : DB) (connErr e1 e2 e3 : Bool) :
    Outcome DB × List Ev :=
  match connect_to_db connErr with
  | (.exited c, tr) => (.exited c, .wroteFiles :: tr)
  | (.ok _, tr) =>
      let p1 := create_schema db schema_name e1
      let p2 := create_table p1.1 schema_name "id_and_name_cat" e2
      let p3 := insert_records p2.1 schema_name "id_and_name_cat" seedRecords e3
      (.ok p3.1, .wroteFiles :: tr ++ p1.2 ++ p2.2 ++ p3.2 ++ [.connClose])

/-- hook.py lines 131-141: `cdc_insert`.  Connects, inserts the two extra
records into the fixture table, closes the connection. -/
def cdc_insert (schema_name : String) (db : DB) (connErr e : Bool) :
    Outcome DB × List Ev :=
  match connect_to_db connErr with
  | (.exited c, tr) => (.exited c, tr)
  | (.ok _, tr) =>
      let p := insert_records db schema_name "id_and_name_cat" cdcRecords e
      (.ok p.1, tr ++ p.2 ++ [.connClose])

/-- hook.py lines 189-194: `teardown`.  Connects, formats yesterday's date
in the fixed timezone, deletes every schema with that prefix.  The
connection is never closed here. -/
def teardown (today : Date) (db : DB) (connErr qErr : Bool) :
    Outcome DB × List Ev :=
  match connect_to_db connErr with
  | (.exited c, tr) => (.exited c, tr)
  | (.ok _, tr) =>
      let p := delete_schemas_with_prefix db ⟨strftimeYmd (prevDay today)⟩ qErr
      (p.1, tr ++ p.2)

/-- hook.py lines 196-200: `final_teardown`.  Connects, reads the persisted
schema name, deletes by that prefix.  The connection is never closed. -/
def final_teardown (schema_name : String) (db : DB) (connErr qErr : Bool) :
    Outcome DB × List Ev :=
  match connect_to_db connErr with
  | (.exited c, tr) => (.exited c, tr)
  | (.ok _, tr) =>
      let p := delete_schemas_with_prefix db schema_name qErr
      (p.1, tr ++ .logged :: p.2)

/-- Python `%` string formatting, restricted to the directives hook.py uses:
`%s` consumes the next argument, `%%` is a literal percent, any other
directive is out of scope (`none`).  Returns the formatted text together
with the unconsumed arguments; running out of arguments is an error. -/
def pyFmtAux : List Char → List (List Char) → Option (List Char × List (List Char))
  | [], args => some ([], args)
  | c :: rest, args =>
      if c = '%' then
        match rest, args with
        | 's' :: rest2, a :: args2 =>
            (pyFmtAux rest2 args2).map (fun p => (a ++ p.1, p.2))
        | 's' :: _, [] => none
        | '%' :: rest2, _ =>
            (pyFmtAux rest2 args).map (fun p => ('%' :: p.1, p.2))
        | _, _ => none
      else (pyFmtAux rest args).map (fun p => (c :: p.1, p.2))

/-- The whole `template % args` operation: every argument must be consumed
(Python raises otherwise). -/
def pyFmt (tmpl : String) (args : List String) : Option String :=
  match pyFmtAux tmpl.data (args.map String.data) with
  | some (out, []) => some ⟨out⟩
  | _ => none

/-- hook.py line 82: the content written to `configured_catalog_copy.json`
is the template formatted with the schema name. -/
def catalog_copy_content (template schema_name : String) : Option String :=
  pyFmt template [schema_name]

/-- hook.py line 85: the incremental catalog copy, same substitution. -/
def incremental_catalog_copy_content (template schema_name : String) : Option String :=
  pyFmt template [schema_name]

/-- hook.py line 88: the abnormal-state copy substitutes the schema name
twice. -/
def abnormal_state_copy_content (template schema_name : String) : Option String :=
  pyFmt template [schema_name, schema_name]

/-- Command dispatch of hook.py lines 204-218, returning `none` for the
unrecognized-command branch (which prints and exits with status 1).
The `setup` and `setup_cdc` branches both call `setup()` (lines 205, 207);
`prepare` only writes the schema-name file (lines 125-129). -/
def runCommand (command : String) (schema_name : String) (today : Date) (db : DB)
    (connErr e1 e2 e3 : Bool) : Option (Outcome DB × List Ev) :=
  if command = "setup" then some (setup schema_name db connErr e1 e2 e3)
  else if command = "setup_cdc" then some (setup schema_name db connErr e1 e2 e3)
  else if command = "teardown" then some (teardown today db connErr e3)
  else if command = "final_teardown" then some (final_teardown schema_name db connErr e3)
  else if command = "prepare" then some (.ok db, [.wroteFiles])
  else if command = "insert" then some (cdc_insert schema_name db connErr e3)
  else none

/-- How an invocation of the `__main__` block can end. -/
inductive MainResult where
  | indexError
  | completed (r : Outcome DB × List Ev)
  | unrecognizedExit (code : Nat)
deriving DecidableEq, Repr

/-- hook.py lines 202-218: the `__main__` block.  `sys.argv[1]` (line 203)
raises an uncaught `IndexError` when there is no positional argument; an
unknown command prints a message and calls `exit(1)`. -/
def mainEntry (argv : List String) (schema_name : String) (today : Date) (db : DB)
    (connErr e1 e2 e3 : Bool) : MainResult :=
  match argv[1]? with
  | none => .indexError
  | some command =>
      match runCommand command schema_name today db connErr e1 e2 e3 with
      | some r => .completed r
      | none => .unrecognizedExit 1

/-! ### Helper lemmas -/

theorem digitChar_isDigit (n : Nat) : (digitChar n).isDigit = true := by
  rcases n with _|_|_|_|_|_|_|_|_|_|n <;> rfl

theorem natToDigits_all_digit (n : Nat) : ∀ c ∈ natToDigits n, c.isDigit = true := by
  unfold natToDigits
  split
  · simp [digitChar_isDigit]
  · split
    · simp [digitChar_isDigit]
    · split <;> simp [digitChar_isDigit]

theorem pad2_all_digit (n : Nat) : ∀ c ∈ pad2 n, c.isDigit = true := by
  unfold pad2
  split
  · simp [digitChar_isDigit]
  · exact natToDigits_all_digit n

theorem strftimeYmd_all_digit (d : Date) : ∀ c ∈ strftimeYmd d, c.isDigit = true := by
  intro c hc
  unfold strftimeYmd at hc
  rcases List.mem_append.mp hc with h | h
  · rcases List.mem_append.mp h with h2 | h2
    · exact natToDigits_all_digit _ c h2
    · exact pad2_all_digit _ c h2
  · exact pad2_all_digit _ c h

theorem natToDigits_len4 (n : Nat) (h1 : 1000 ≤ n) (h2 : n ≤ 9999) :
    (natToDigits n).length = 4 := by
  unfold natToDigits
  rw [if_neg (by omega), if_neg (by omega), if_neg (by omega)]
  rfl

theorem pad2_len (n : Nat) (h : n ≤ 99) : (pad2 n).length = 2 := by
  unfold pad2
  split
  · rfl
  · unfold natToDigits
    rw [if_neg (by omega), if_pos (by omega)]
    rfl

theorem strftimeYmd_len (d : Date) (hy1 : 1000 ≤ d.year) (hy2 : d.year ≤ 9999)
    (hm : d.month ≤ 99) (hd : d.day ≤ 99) : (strftimeYmd d).length = 8 := by
  unfold strftimeYmd
  rw [List.length_append, List.length_append, natToDigits_len4 _ hy1 hy2,
    pad2_len _ hm, pad2_len _ hd]


theorem likePrefixMatch_refl (p : List Char) : likePrefixMatch p p = true := by
  induction p with
  | nil => rfl
  | cons c cs ih => simp [likePrefixMatch, likeCharMatch, ih]

theorem likePrefixMatch_eq_isPrefixOf (p : List Char) (h : ∀ c ∈ p, c ≠ '_') :
    ∀ s : List Char, likePrefixMatch p s = p.isPrefixOf s := by
  induction p with
  | nil => intro s; cases s <;> rfl
  | cons c cs ih =>
      intro s
      cases s with
      | nil => rfl
      | cons b bs =>
          have hc : c ≠ '_' := h c (by simp)
          have hc2 : (c == '_') = false := by simpa using hc
          simp [likePrefixMatch, likeCharMatch, List.isPrefixOf, hc2,
            ih (fun x hx => h x (by simp [hx]))]

theorem strftimeYmd_no_underscore (d : Date) : ∀ c ∈ strftimeYmd d, c ≠ '_' := by
  intro c hc he
  have := strftimeYmd_all_digit d c hc
  rw [he] at this
  simp at this

theorem foldl_dropSchema_schemas (l : List String) :
    ∀ db : DB, (l.foldl dropSchema db).schemas =
      db.schemas.filter (fun s => !(l.contains s)) := by
  induction l with
  | nil => intro db; simp
  | cons a l ih =>
      intro db
      rw [List.foldl_cons, ih (dropSchema db a)]
      show ((db.schemas.filter fun s => s != a).filter fun s => !(l.contains s)) = _
      rw [List.filter_filter]
      apply List.filter_congr
      intro s _
      by_cases hsa : s = a <;> by_cases hsl : s ∈ l <;>
        simp [List.contains_cons, Bool.not_or, bne, hsa, hsl]


theorem contains_filter_eq (db : DB) (P : String → Bool) (s : String)
    (hs : s ∈ db.schemas) : (db.schemas.filter P).contains s = P s := by
  cases hp : P s with
  | true =>
      have : s ∈ db.schemas.filter P := List.mem_filter.mpr ⟨hs, hp⟩
      simpa using this
  | false =>
      cases hc : (db.schemas.filter P).contains s with
      | true =>
          have : s ∈ db.schemas.filter P := by simpa using hc
          have := (List.mem_filter.mp this).2
          rw [hp] at this
          cases this
      | false => rfl

theorem delete_ok_schemas (db : DB) (pref : String) :
    ∃ db2, ( delete_schemas_with_prefix db pref false).1 = Outcome.ok db2 ∧
      db2.schemas = db.schemas.filter (fun s => !(likePrefixMatch pref.data s.data)) := by
  refine ⟨_, rfl, ?_⟩
  rw [foldl_dropSchema_schemas]
  apply List.filter_congr
  intro s hs
  rw [contains_filter_eq db _ s hs]

theorem idMem_upsertRow_self (rows : List Row) (r : Row) :
    idMem (upsertRow rows r) r.id = true := by
  unfold upsertRow
  split
  · assumption
  · simp [idMem, List.any_append]

theorem idMem_upsertRow_mono (rows : List Row) (r : Row) (i : String)
    (h : idMem rows i = true) : idMem (upsertRow rows r) i = true := by
  unfold upsertRow
  split
  · exact h
  · simp [idMem, List.any_append]
    left
    simpa [idMem] using h

theorem idMem_insertRows_mono (recs : List Row) :
    ∀ (rows : List Row) (i : String), idMem rows i = true →
      idMem (insertRows rows recs) i = true := by
  induction recs with
  | nil => intro rows i h; exact h
  | cons a l ih =>
      intro rows i h
      rw [insertRows, List.foldl_cons]
      exact ih (upsertRow rows a) i (idMem_upsertRow_mono rows a i h)

theorem idMem_insertRows_of_mem (recs : List Row) :
    ∀ (rows : List Row) (r : Row), r ∈ recs →
      idMem (insertRows rows recs) r.id = true := by
  induction recs with
  | nil => intro rows r h; cases h
  | cons a l ih =>
      intro rows r h
      rw [insertRows, List.foldl_cons]
      rcases List.mem_cons.mp h with h | h
      · subst h
        exact idMem_insertRows_mono l (upsertRow rows r) r.id (idMem_upsertRow_self rows r)
      · exact ih (upsertRow rows a) r h

theorem upsertRow_of_idMem (rows : List Row) (r : Row)
    (h : idMem rows r.id = true) : upsertRow rows r = rows := by
  unfold upsertRow
  rw [if_pos h]

theorem insertRows_of_all_idMem (recs : List Row) :
    ∀ rows : List Row, (∀ r ∈ recs, idMem rows r.id = true) →
      insertRows rows recs = rows := by
  induction recs with
  | nil => intro rows _; rfl
  | cons a l ih =>
      intro rows h
      rw [insertRows, List.foldl_cons, upsertRow_of_idMem rows a (h a (by simp))]
      exact ih rows (fun r hr => h r (by simp [hr]))

theorem insertRows_idem (rows recs : List Row) :
    insertRows (insertRows rows recs) recs = insertRows rows recs :=
  insertRows_of_all_idMem recs (insertRows rows recs)
    (fun r hr => idMem_insertRows_of_mem recs rows r hr)

theorem updTab_cons (e : (String × String) × List Row)
    (l : List ((String × String) × List Row)) (s t : String) (v : List Row) :
    updTab (e :: l) s t v =
      cond (e.1.1 == s && e.1.2 == t) (e.1, v) e :: updTab l s t v := rfl

theorem findTab_cons_pos (e : (String × String) × List Row)
    (l : List ((String × String) × List Row)) (s t : String)
    (hk : (e.1.1 == s && e.1.2 == t) = true) :
    findTab (e :: l) s t = some e.2 := by
  simp [findTab, List.find?_cons, hk]

theorem findTab_cons_neg (e : (String × String) × List Row)
    (l : List ((String × String) × List Row)) (s t : String)
    (hk : (e.1.1 == s && e.1.2 == t) = false) :
    findTab (e :: l) s t = findTab l s t := by
  simp [findTab, List.find?_cons, hk]

theorem findTab_updTab (l : List ((String × String) × List Row)) (s t : String)
    (v : List Row) (h : (findTab l s t).isSome) :
    findTab (updTab l s t v) s t = some v := by
  induction l with
  | nil => simp [findTab] at h
  | cons e l ih =>
      cases hk : (e.1.1 == s && e.1.2 == t) with
      | true =>
          rw [updTab_cons, hk, cond_true]
          exact findTab_cons_pos (e.1, v) (updTab l s t v) s t hk
      | false =>
          have h2 : (findTab l s t).isSome := by
            rw [findTab_cons_neg _ _ _ _ hk] at h
            exact h
          rw [updTab_cons, hk, cond_false, findTab_cons_neg _ _ _ _ hk]
          exact ih h2

theorem updTab_updTab (l : List ((String × String) × List Row)) (s t : String)
    (v v2 : List Row) : updTab (updTab l s t v) s t v2 = updTab l s t v2 := by
  induction l with
  | nil => rfl
  | cons e l ih =>
      cases hk : (e.1.1 == s && e.1.2 == t) with
      | true => simp [updTab_cons, hk, ih]
      | false => simp [updTab_cons, hk, ih]

theorem pyFmtAux_cons_ne (c : Char) (rest : List Char) (args : List (List Char))
    (h : c ≠ '%') :
    pyFmtAux (c :: rest) args = (pyFmtAux rest args).map (fun p => (c :: p.1, p.2)) := by
  rw [pyFmtAux.eq_def]
  simp [h]

theorem pyFmtAux_no_pct (pre : List Char) (h : '%' ∉ pre) :
    ∀ (rest : List Char) (args : List (List Char)),
      pyFmtAux (pre ++ rest) args =
        (pyFmtAux rest args).map (fun p => (pre ++ p.1, p.2)) := by
  induction pre with
  | nil =>
      intro rest args
      simp
  | cons c pre ih =>
      intro rest args
      have hc : c ≠ '%' := by
        intro hc
        exact h (by simp [hc])
      have hpre : '%' ∉ pre := by
        intro hp
        exact h (by simp [hp])
      rw [List.cons_append, pyFmtAux_cons_ne c (pre ++ rest) args hc, ih hpre rest args]
      cases pyFmtAux rest args <;> simp

theorem pyFmtAux_no_pct_nil (post : List Char) (h : '%' ∉ post) :
    pyFmtAux post [] = some (post, []) := by
  have h2 := pyFmtAux_no_pct post h [] []
  rw [show pyFmtAux [] [] = some ([], []) from rfl] at h2
  simpa using h2

theorem hasEv_append (l l2 : List Ev) (e : Ev) :
    hasEv (l ++ l2) e = (hasEv l e || hasEv l2 e) := by
  simp [hasEv, List.any_append]

theorem hasEv_cons (x : Ev) (l : List Ev) (e : Ev) :
    hasEv (x :: l) e = (decide (x = e) || hasEv l e) := by
  simp [hasEv]

theorem hasEv_map_ne {α : Type} (l : List α) (c e : Ev) (h : c ≠ e) :
    hasEv (l.map (fun _ => c)) e = false := by
  induction l with
  | nil => rfl
  | cons a l ih => simp [hasEv, List.any_cons, h] at ih ⊢

/-! ### Claim theorems -/

/-- C1 counterexample: with today = 2024-01-03, the schema
`20240101_aaaaaaaa` is date-stamped strictly before today (two days ago),
yet `teardown` leaves it in the database: only the schema stamped with
yesterday's date `20240102` is dropped.  This refutes the claim that every
schema dated strictly before today is deleted. -/
theorem teardown_keeps_two_day_old_schema :
    (teardown ⟨2024, 1, 3⟩
        ⟨["20240101_aaaaaaaa", "20240102_bbbbbbbb", "20240103_cccccccc"], []⟩
        false false).1 =
      Outcome.ok ⟨["20240101_aaaaaaaa", "20240103_cccccccc"], []⟩ := by
  decide

/-- C1 (amended): `teardown` deletes exactly the schemas whose name starts
with yesterday's date stamp (today minus one day, in the fixed
America/Los_Angeles timezone); schemas dated today remain untouched, and so
do schemas dated two or more days ago. -/
theorem teardown_removes_yesterday_prefixed (today : Date) (db : DB) :
    ∃ db2, (teardown today db false false).1 = Outcome.ok db2 ∧
      db2.schemas = db.schemas.filter
        (fun s => !((strftimeYmd (prevDay today)).isPrefixOf s.data)) := by
  obtain ⟨db2, h1, h2⟩ := delete_ok_schemas db ⟨strftimeYmd (prevDay today)⟩
  refine ⟨db2, h1, ?_⟩
  rw [h2]
  have hfun : (fun s : String =>
        !(likePrefixMatch (String.mk (strftimeYmd (prevDay today))).data s.data)) =
      (fun s : String => !((strftimeYmd (prevDay today)).isPrefixOf s.data)) := by
    funext s
    rw [show (String.mk (strftimeYmd (prevDay today))).data = strftimeYmd (prevDay today)
      from rfl]
    rw [likePrefixMatch_eq_isPrefixOf _ (strftimeYmd_no_underscore (prevDay today)) s.data]
  rw [hfun]

/-- C2 counterexample: with persisted identifier `20240101_abcd1234`,
`final_teardown` also drops the distinct schema `20240101_abcd1234x`,
whose name has the identifier as a proper prefix, refuting the claim that
no other schema is dropped. -/
theorem final_teardown_drops_extended_name :
    (final_teardown "20240101_abcd1234"
        ⟨["20240101_abcd1234", "20240101_abcd1234x", "20240101_zzzzzzzz"], []⟩
        false false).1 =
      Outcome.ok ⟨["20240101_zzzzzzzz"], []⟩ := by
  decide

/-- C2 (amended): `final_teardown` deletes every schema whose name matches
the persisted identifier as a SQL LIKE prefix pattern (the identifier
followed by any suffix, an underscore in the identifier matching any
single character); in particular the persisted schema itself is gone
afterwards, but schemas extending the identifier are dropped as well. -/
theorem final_teardown_drops_like_matched (sn : String) (db : DB) :
    ∃ db2, (final_teardown sn db false false).1 = Outcome.ok db2 ∧
      db2.schemas = db.schemas.filter (fun s => !(likePrefixMatch sn.data s.data)) ∧
      db2.schemas.contains sn = false := by
  obtain ⟨db2, h1, h2⟩ := delete_ok_schemas db sn
  refine ⟨db2, h1, h2, ?_⟩
  rw [h2]
  cases hc : (db.schemas.filter (fun s => !(likePrefixMatch sn.data s.data))).contains sn with
  | false => rfl
  | true =>
      have hm : sn ∈ db.schemas.filter (fun s => !(likePrefixMatch sn.data s.data)) := by
        simpa using hc
      have hp := (List.mem_filter.mp hm).2
      rw [likePrefixMatch_refl] at hp
      simp at hp

/-- C9: dispatching the `setup` command and dispatching the `setup_cdc`
command run the same function on the same state, so they perform the same
effects and produce the same final state. -/
theorem setup_and_setup_cdc_dispatch_equal (sn : String) (today : Date) (db : DB)
    (connErr e1 e2 e3 : Bool) :
    runCommand "setup" sn today db connErr e1 e2 e3 =
      runCommand "setup_cdc" sn today db connErr e1 e2 e3 := rfl

/-- C10: invoked with no positional argument, the script fails with an
uncaught IndexError while reading `sys.argv[1]`, before any command
dispatch; the unrecognized-command branch is never reached. -/
theorem missing_argument_index_error (argv : List String) (sn : String) (today : Date)
    (db : DB) (connErr e1 e2 e3 : Bool) (h : argv.length ≤ 1) :
    mainEntry argv sn today db connErr e1 e2 e3 = MainResult.indexError := by
  unfold mainEntry
  rw [List.getElem?_eq_none h]

/-- C10 witness: the concrete argv holding only the script name ends in the
IndexError outcome. -/
theorem missing_argument_index_error_witness :
    mainEntry ["hook.py"] "sn" ⟨2024, 1, 1⟩ ⟨[], []⟩ false false false false =
      MainResult.indexError :=
  missing_argument_index_error ["hook.py"] "sn" ⟨2024, 1, 1⟩ ⟨[], []⟩ false false false false
    (by decide)

/-- C5: every identifier produced by the schema-name generator matches
`^\d{8}_[a-z0-9]{8}$` — an 8-digit date stamp, an underscore, then eight
characters drawn from lowercase letters and digits.  The hypotheses record
what `datetime.now` guarantees about the current date (a four-digit year,
at most two-digit month and day) and that `random.choices` draws exactly
eight characters. -/
theorem generated_schema_identifier_matches_pattern (today : Date)
    (picks : List (Fin 36)) (hy1 : 1000 ≤ today.year) (hy2 : today.year ≤ 9999)
    (hm : today.month ≤ 99) (hd : today.day ≤ 99) (hp : picks.length = 8) :
    matchesSchemaPattern (generate_schema_date_with_suffix today picks) = true := by
  have hlen : (strftimeYmd today).length = 8 := strftimeYmd_len today hy1 hy2 hm hd
  have htake : (strftimeYmd today ++ '_' :: picks.map pickChar).take 8 =
      strftimeYmd today := by
    rw [← hlen]
    exact List.take_left _ _
  have hdrop : (strftimeYmd today ++ '_' :: picks.map pickChar).drop 8 =
      '_' :: picks.map pickChar := by
    rw [← hlen]
    exact List.drop_left _ _
  have hdrop9 : (strftimeYmd today ++ '_' :: picks.map pickChar).drop 9 =
      picks.map pickChar := by
    rw [show (9 : Nat) = 8 + 1 from rfl, ← List.drop_drop 1 8, hdrop]
    rfl
  have hpick : ∀ i : Fin 36, isLowerOrDigit (pickChar i) = true := by decide
  show ((strftimeYmd today ++ '_' :: picks.map pickChar).length == 17 &&
      ((strftimeYmd today ++ '_' :: picks.map pickChar).take 8).all Char.isDigit &&
      ((strftimeYmd today ++ '_' :: picks.map pickChar).drop 8).take 1 == ['_'] &&
      ((strftimeYmd today ++ '_' :: picks.map pickChar).drop 9).all isLowerOrDigit) = true
  rw [htake, hdrop, hdrop9]
  simp only [Bool.and_eq_true, beq_iff_eq, List.length_append, List.length_cons,
    List.length_map, hlen, hp, List.all_eq_true]
  refine ⟨⟨⟨trivial, fun c hc => strftimeYmd_all_digit today c hc⟩, rfl⟩, ?_⟩
  intro c hc
  obtain ⟨i, _, hi⟩ := List.mem_map.mp hc
  rw [← hi]
  exact hpick i

/-- C5 witness: a concrete date and draw sequence produce a matching
identifier. -/
theorem generated_schema_identifier_matches_pattern_witness :
    matchesSchemaPattern
      (generate_schema_date_with_suffix ⟨2024, 1, 15⟩ (List.replicate 8 0)) = true :=
  generated_schema_identifier_matches_pattern ⟨2024, 1, 15⟩ (List.replicate 8 0)
    (by decide) (by decide) (by decide) (by decide) (by decide)

theorem hasEv_nil (e : Ev) : hasEv [] e = false := rfl

theorem hasEv_replicate_ne (n : Nat) (c e : Ev) (h : c ≠ e) :
    hasEv (List.replicate n c) e = false := by
  induction n with
  | zero => rfl
  | succ k ih => simp [hasEv, List.replicate_succ, List.any_cons, h] at ih ⊢

theorem insert_records_err (db : DB) (s t : String) (recs : List Row) :
    insert_records db s t recs true =
      (db, [Ev.cursorOpen, Ev.logged, Ev.rollback, Ev.cursorClose]) := by
  cases h : getTable db s t with
  | none => simp [insert_records, h]
  | some rows => simp [insert_records, h]

/-- C3: the error taxonomy of the script.  A connection failure makes every
command exit with status 1.  A query failure during schema creation, table
creation or record insertion is caught, logged and rolled back, leaving the
state unchanged, and `setup` still completes normally whatever combination
of provisioning failures occurs.  A query failure during schema enumeration
or dropping makes `teardown` and `final_teardown` exit with status 1. -/
theorem error_handling_asymmetry :
    (∀ (sn : String) (db : DB) (e1 e2 e3 : Bool),
      (setup sn db true e1 e2 e3).1 = Outcome.exited 1) ∧
    (∀ (sn : String) (db : DB) (e : Bool), (cdc_insert sn db true e).1 = Outcome.exited 1) ∧
    (∀ (today : Date) (db : DB) (e : Bool), (teardown today db true e).1 = Outcome.exited 1) ∧
    (∀ (sn : String) (db : DB) (e : Bool),
      (final_teardown sn db true e).1 = Outcome.exited 1) ∧
    (∀ (db : DB) (s : String), create_schema db s true =
      (db, [Ev.cursorOpen, Ev.logged, Ev.rollback, Ev.cursorClose])) ∧
    (∀ (db : DB) (s t : String), create_table db s t true =
      (db, [Ev.cursorOpen, Ev.logged, Ev.rollback, Ev.cursorClose])) ∧
    (∀ (db : DB) (s t : String) (recs : List Row), insert_records db s t recs true =
      (db, [Ev.cursorOpen, Ev.logged, Ev.rollback, Ev.cursorClose])) ∧
    (∀ (sn : String) (db : DB) (e1 e2 e3 : Bool),
      ∃ db2, (setup sn db false e1 e2 e3).1 = Outcome.ok db2) ∧
    (∀ (db : DB) (pref : String),
      ( delete_schemas_with_prefix db pref true).1 = Outcome.exited 1) ∧
    (∀ (today : Date) (db : DB), (teardown today db false true).1 = Outcome.exited 1) ∧
    (∀ (sn : String) (db : DB), (final_teardown sn db false true).1 = Outcome.exited 1) := by
  refine ⟨fun _ _ _ _ _ => rfl, fun _ _ _ => rfl, fun _ _ _ => rfl, fun _ _ _ => rfl,
    fun _ _ => rfl, fun _ _ _ => rfl, fun db s t recs => insert_records_err db s t recs,
    fun _ _ _ _ _ => ⟨_, rfl⟩, fun _ _ => rfl, fun _ _ => rfl, fun _ _ => rfl⟩

/-- C4 counterexample: a successful `teardown` run opens the database
connection, completes normally, and returns without ever closing the
connection, refuting the claim that the connection acquired by a command
is closed before the command returns on all paths. -/
theorem teardown_opens_but_never_closes_connection :
    (teardown ⟨2024, 1, 3⟩ ⟨["20240102_bbbbbbbb"], []⟩ false false).1 =
      Outcome.ok ⟨[], []⟩ ∧
    hasEv (teardown ⟨2024, 1, 3⟩ ⟨["20240102_bbbbbbbb"], []⟩ false false).2
      Ev.connOpen = true ∧
    hasEv (teardown ⟨2024, 1, 3⟩ ⟨["20240102_bbbbbbbb"], []⟩ false false).2
      Ev.connClose = false := by
  refine ⟨by decide, by decide, by decide⟩

/-- C4 (amended): each guarded operation closes its cursor on every path,
including every error path, and `setup` and `cdc_insert` close the
connection before returning; but `teardown` and `final_teardown` never
close the connection they acquire. -/
theorem cursors_closed_but_teardown_leaks_connection :
    (∀ (db : DB) (s t : String) (recs : List Row) (e : Bool),
      hasEv (insert_records db s t recs e).2 Ev.cursorClose = true) ∧
    (∀ (db : DB) (s : String) (e : Bool),
      hasEv (create_schema db s e).2 Ev.cursorClose = true) ∧
    (∀ (db : DB) (s t : String) (e : Bool),
      hasEv (create_table db s t e).2 Ev.cursorClose = true) ∧
    (∀ (db : DB) (pref : String) (e : Bool),
      hasEv ( delete_schemas_with_prefix db pref e).2 Ev.cursorClose = true) ∧
    (∀ (sn : String) (db : DB) (e1 e2 e3 : Bool),
      hasEv (setup sn db false e1 e2 e3).2 Ev.connClose = true) ∧
    (∀ (sn : String) (db : DB) (e : Bool),
      hasEv (cdc_insert sn db false e).2 Ev.connClose = true) ∧
    (∀ (today : Date) (db : DB) (ce qe : Bool),
      hasEv (teardown today db ce qe).2 Ev.connClose = false) ∧
    (∀ (sn : String) (db : DB) (ce qe : Bool),
      hasEv (final_teardown sn db ce qe).2 Ev.connClose = false) := by
  refine ⟨?_, ?_, ?_, ?_, ?_, ?_, ?_, ?_⟩
  · intro db s t recs e
    cases e with
    | true => rw [insert_records_err]; rfl
    | false =>
        cases h : getTable db s t with
        | none => simp [insert_records, h, hasEv]
        | some rows =>
            simp [insert_records, h, hasEv, List.any_cons, List.any_append]
  · intro db s e
    cases e <;> simp [create_schema, hasEv]
  · intro db s t e
    cases e <;> simp [create_table, hasEv]
  · intro db pref e
    cases e with
    | true => simp [ delete_schemas_with_prefix, hasEv]
    | false => simp [ delete_schemas_with_prefix, hasEv, List.any_cons, List.any_append]
  · intro sn db e1 e2 e3
    simp [setup, connect_to_db, hasEv_append, hasEv_cons, hasEv_nil]
  · intro sn db e
    simp [cdc_insert, connect_to_db, hasEv_append, hasEv_cons, hasEv_nil]
  · intro today db ce qe
    cases ce with
    | true => simp [teardown, connect_to_db, hasEv]
    | false =>
        cases qe with
        | true =>
            simp [teardown, connect_to_db, delete_schemas_with_prefix,
              hasEv_append, hasEv_cons, hasEv_nil]
        | false =>
            simp [teardown, connect_to_db, delete_schemas_with_prefix,
              hasEv_append, hasEv_cons, hasEv_nil, hasEv_map_ne, hasEv_replicate_ne]
  · intro sn db ce qe
    cases ce with
    | true => simp [final_teardown, connect_to_db, hasEv]
    | false =>
        cases qe with
        | true =>
            simp [final_teardown, connect_to_db, delete_schemas_with_prefix,
              hasEv_append, hasEv_cons, hasEv_nil]
        | false =>
            simp [final_teardown, connect_to_db, delete_schemas_with_prefix,
              hasEv_append, hasEv_cons, hasEv_nil, hasEv_map_ne, hasEv_replicate_ne]

/-- C6: starting from an empty database, `setup` leaves the fixture table
holding exactly the three seed records, and a subsequent `cdc_insert`
leaves exactly the five records with ids 1 to 5 mapped to their spelled-out
names, whose primary keys are pairwise distinct. -/
theorem setup_then_cdc_insert_table_contents (sn : String) :
    ∃ db1, (setup sn ⟨[], []⟩ false false false false).1 = Outcome.ok db1 ∧
      getTable db1 sn "id_and_name_cat" =
        some [⟨"1", "one"⟩, ⟨"2", "two"⟩, ⟨"3", "three"⟩] ∧
      ∃ db2, (cdc_insert sn db1 false false).1 = Outcome.ok db2 ∧
        getTable db2 sn "id_and_name_cat" =
          some [⟨"1", "one"⟩, ⟨"2", "two"⟩, ⟨"3", "three"⟩, ⟨"4", "four"⟩,
            ⟨"5", "five"⟩] ∧
        (([⟨"1", "one"⟩, ⟨"2", "two"⟩, ⟨"3", "three"⟩, ⟨"4", "four"⟩,
            ⟨"5", "five"⟩] : List Row).map Row.id).Nodup := by
  refine ⟨_, rfl, ?_, _, rfl, ?_, by decide⟩
  · simp [setup, connect_to_db, create_schema, create_table, insert_records, getTable,
      findTab, setTable, updTab, insertRows, upsertRow, idMem, seedRecords,
      List.find?_cons]
  · simp [setup, connect_to_db, create_schema, create_table, insert_records, cdc_insert,
      getTable, findTab, setTable, updTab, insertRows, upsertRow, idMem, seedRecords,
      cdcRecords, List.find?_cons]

/-- C7: record insertion is an idempotent upsert keyed on the primary key:
upserting a record whose id is already present leaves the table unchanged,
and running `insert_records` twice with the same records equals running it
once. -/
theorem insert_records_upsert_idempotent :
    (∀ (rows : List Row) (r : Row), idMem rows r.id = true → upsertRow rows r = rows) ∧
    (∀ (db : DB) (s t : String) (recs : List Row),
      insert_records (insert_records db s t recs false).1 s t recs false =
        insert_records db s t recs false) := by
  constructor
  · exact upsertRow_of_idMem
  · intro db s t recs
    cases h : getTable db s t with
    | none => simp [insert_records, h]
    | some rows =>
        have hs : (findTab db.tables s t).isSome = true := by
          rw [show findTab db.tables s t = getTable db s t from rfl, h]
          rfl
        have h2 : getTable (setTable db s t (insertRows rows recs)) s t =
            some (insertRows rows recs) :=
          findTab_updTab db.tables s t (insertRows rows recs) hs
        have h2b : getTable
            { schemas := db.schemas, tables := updTab db.tables s t (insertRows rows recs) }
            s t = some (insertRows rows recs) := h2
        simp [insert_records, h, h2, h2b, insertRows_idem, setTable, updTab_updTab]

/-- C7 witness: re-upserting id 1 into a table that already holds id 1
leaves the table unchanged. -/
theorem insert_records_upsert_idempotent_witness :
    upsertRow [⟨"1", "one"⟩] ⟨"1", "uno"⟩ = [⟨"1", "one"⟩] :=
  insert_records_upsert_idempotent.1 [⟨"1", "one"⟩] ⟨"1", "uno"⟩ (by decide)

/-- C8: for a template made of a placeholder-free prefix, one `%s`
placeholder and a placeholder-free suffix, the content written to the
catalog copy file is the template with the placeholder replaced by the
schema name as a literal string, and nothing else changed. -/
theorem catalog_copy_substitutes_placeholder (pre post sn : String)
    (h1 : '%' ∉ pre.data) (h2 : '%' ∉ post.data) :
    catalog_copy_content (pre ++ "%s" ++ post) sn = some (pre ++ sn ++ post) := by
  unfold catalog_copy_content pyFmt
  have hdata : (pre ++ "%s" ++ post).data = pre.data ++ ('%' :: 's' :: post.data) := by
    simp [String.data_append]
  rw [hdata]
  rw [show List.map String.data [sn] = [sn.data] from rfl]
  rw [pyFmtAux_no_pct pre.data h1 ('%' :: 's' :: post.data) [sn.data]]
  rw [show pyFmtAux ('%' :: 's' :: post.data) [sn.data] =
      (pyFmtAux post.data []).map (fun p => (sn.data ++ p.1, p.2)) from by
    rw [pyFmtAux.eq_def]
    simp]
  rw [pyFmtAux_no_pct_nil post.data h2]
  refine congrArg some (String.ext ?_)
  simp [String.data_append]

/-- C8 witness: a concrete template around one `%s` placeholder is
materialized with the schema name substituted. -/
theorem catalog_copy_substitutes_placeholder_witness :
    catalog_copy_content ("pre " ++ "%s" ++ " post") "20240101_abcd1234" =
      some ("pre " ++ "20240101_abcd1234" ++ " post") :=
  catalog_copy_substitutes_placeholder "pre " " post" "20240101_abcd1234"
    (by decide) (by decide)
